import Mathlib

/-!
# Verification of the fx2-sim example firmware

Shallow embedding of the firmware sources of the fx2-sim repository:

* `src/test/clkspd.c` — the clock-divider cycling state machine that
  read-modify-writes the 2-bit CLKSPD field of the CPUCS hardware register;
* `src/firmware/fx2usb/main.c` and `src/test-libfx2/main.c` — the USB
  descriptor model and the SUDAV-polling control-dispatch loop.

Machine bytes are modelled as `Nat` with explicit `% 256` where an 8-bit
store occurs. Hardware registers are fields of an explicit state record;
the external protocol engine (`isr_SUDAV` from libfx2) is an arbitrary
state-transformer parameter.
-/

/-! ## Clock-divider FSM (src/test/clkspd.c)

```
#define _CLKSPD_OFFSET (3)
#define _CLKSPD0 (1U << _CLKSPD_OFFSET)
#define _CLKSPD1 (1U << (_CLKSPD_OFFSET + 1))
#define _CLKSPD_MASK (_CLKSPD0 | _CLKSPD1)
...
cpuspd = (CPUCS & _CLKSPD_MASK) >> _CLKSPD_OFFSET;
cpuspd++;
if (cpuspd > 2) {
  cpuspd = 0;
}
CPUCS = cpuspd << _CLKSPD_OFFSET;
```
-/

def CLKSPD_OFFSET : Nat := 3

def CLKSPD_MASK : Nat := (1 <<< CLKSPD_OFFSET) ||| (1 <<< (CLKSPD_OFFSET + 1))

/-- The value of the 2-bit CLKSPD field of a CPUCS byte:
`(CPUCS & _CLKSPD_MASK) >> _CLKSPD_OFFSET`. -/
def clkspd (cpucs : Nat) : Nat := (cpucs &&& CLKSPD_MASK) >>> CLKSPD_OFFSET

/-- One iteration of the loop body of `main` in `src/test/clkspd.c`
(without the busy-wait delay, which does not touch CPUCS): reads CPUCS,
extracts the field into the `uint8_t` local `cpuspd`, increments it,
wraps values above 2 to 0, and stores `cpuspd << _CLKSPD_OFFSET` back
into the 8-bit CPUCS register. -/
def clkspdStep (cpucs : Nat) : Nat :=
  let cpuspd := (clkspd cpucs + 1) % 256
  let cpuspd2 := if cpuspd > 2 then 0 else cpuspd
  (cpuspd2 <<< CLKSPD_OFFSET) % 256

/-- `n` iterations of the clock-divider loop starting from a CPUCS value. -/
def clkspdRun : Nat → Nat → Nat
  | 0, c => c
  | n + 1, c => clkspdRun n (clkspdStep c)

/-! ## USB descriptor model

Embedding of the descriptor records defined in `src/firmware/fx2usb/main.c`
and `src/test-libfx2/main.c`. The record layouts come from the libfx2
headers included by both files; field values that the sources spell with
libfx2 macros use the concrete values of those macros: `USB_DESC_DEVICE = 1`
and `USB_DESC_CONFIGURATION = 2` (the USB standard descriptor-type codes),
`USB_DEV_CLASS_PER_INTERFACE = USB_DEV_SUBCLASS_PER_INTERFACE =
USB_DEV_PROTOCOL_PER_INTERFACE = 0` (the defer-to-interface sentinel),
`USB_ATTR_RESERVED_1 = 0x80`, `sizeof(struct usb_desc_device) = 18` and
`sizeof(struct usb_desc_configuration) = 9` (the standard sizes, spec §6).
-/

structure usb_desc_device where
  bLength : Nat
  bDescriptorType : Nat
  bcdUSB : Nat
  bDeviceClass : Nat
  bDeviceSubClass : Nat
  bDeviceProtocol : Nat
  bMaxPacketSize0 : Nat
  idVendor : Nat
  idProduct : Nat
  bcdDevice : Nat
  iManufacturer : Nat
  iProduct : Nat
  iSerialNumber : Nat
  bNumConfigurations : Nat
deriving DecidableEq

structure usb_desc_configuration where
  bLength : Nat
  bDescriptorType : Nat
  bNumInterfaces : Nat
  bConfigurationValue : Nat
  iConfiguration : Nat
  bmAttributes : Nat
  bMaxPower : Nat
deriving DecidableEq

structure usb_desc_interface where
  bLength : Nat
  bDescriptorType : Nat
  bInterfaceNumber : Nat
  bAlternateSetting : Nat
  bNumEndpoints : Nat
  bInterfaceClass : Nat
  bInterfaceSubClass : Nat
  bInterfaceProtocol : Nat
  iInterface : Nat
deriving DecidableEq

/-- A configuration: its 9-byte header descriptor followed by the ordered
sequence of interface descriptors actually appended to it. In both
firmware sources the item list is written `{ { 0 } }`, the null terminator
of the libfx2 config-item array: zero interface descriptors are appended
(spec §3: an empty sequence is a valid state). -/
structure usb_configuration where
  desc : usb_desc_configuration
  interfaces : List usb_desc_interface
deriving DecidableEq

structure usb_descriptor_set where
  device : usb_desc_device
  config_count : Nat
  configs : List usb_configuration
  string_count : Nat
  strings : List String
deriving DecidableEq

namespace Fx2Usb

/-- `usb_device` of `src/firmware/fx2usb/main.c`. -/
def usb_device : usb_desc_device :=
  { bLength := 18
    bDescriptorType := 1
    bcdUSB := 0x0200
    bDeviceClass := 0
    bDeviceSubClass := 0
    bDeviceProtocol := 0
    bMaxPacketSize0 := 64
    idVendor := 0x04b4
    idProduct := 0x8613
    bcdDevice := 0x0000
    iManufacturer := 1
    iProduct := 2
    iSerialNumber := 0
    bNumConfigurations := 1 }

/-- `usb_config` of `src/firmware/fx2usb/main.c`. -/
def usb_config : usb_configuration :=
  { desc :=
      { bLength := 9
        bDescriptorType := 2
        bNumInterfaces := 0
        bConfigurationValue := 1
        iConfiguration := 0
        bmAttributes := 0x80
        bMaxPower := 50 }
    interfaces := [] }

def usb_configs : List usb_configuration := [usb_config]

def usb_strings : List String :=
  ["Antmicro", "FX2 simulation example firmware"]

/-- `usb_descriptor_set` of `src/firmware/fx2usb/main.c`; the counts are
`ARRAYSIZE` of the corresponding arrays. -/
def usb_descriptor_set : usb_descriptor_set :=
  { device := usb_device
    config_count := usb_configs.length
    configs := usb_configs
    string_count := usb_strings.length
    strings := usb_strings }

end Fx2Usb

namespace TestLibfx2

/-- `usb_device` of `src/test-libfx2/main.c` (identical field values to
the fx2usb image). -/
def usb_device : usb_desc_device :=
  { bLength := 18
    bDescriptorType := 1
    bcdUSB := 0x0200
    bDeviceClass := 0
    bDeviceSubClass := 0
    bDeviceProtocol := 0
    bMaxPacketSize0 := 64
    idVendor := 0x04b4
    idProduct := 0x8613
    bcdDevice := 0x0000
    iManufacturer := 1
    iProduct := 2
    iSerialNumber := 0
    bNumConfigurations := 1 }

/-- `usb_config` of `src/test-libfx2/main.c`: declares two interfaces in
the header while appending none. -/
def usb_config : usb_configuration :=
  { desc :=
      { bLength := 9
        bDescriptorType := 2
        bNumInterfaces := 2
        bConfigurationValue := 1
        iConfiguration := 0
        bmAttributes := 0x80
        bMaxPower := 50 }
    interfaces := [] }

def usb_configs : List usb_configuration := [usb_config]

def usb_strings : List String :=
  ["whitequark@whitequark.org", "FX2 series serial interface example"]

/-- `usb_descriptor_set` of `src/test-libfx2/main.c`. -/
def usb_descriptor_set : usb_descriptor_set :=
  { device := usb_device
    config_count := usb_configs.length
    configs := usb_configs
    string_count := usb_strings.length
    strings := usb_strings }

end TestLibfx2

/-! ## String-index and interface-count invariants (C4, C5) -/

/-- The property §8 of the spec asserts of one referenced string index:
it is 0 or strictly below the string count. -/
abbrev stringIndexOk (n count : Nat) : Prop := n = 0 ∨ n < count

/-- All string indices referenced by the Device descriptor or by a
Configuration descriptor of a set satisfy `stringIndexOk`. -/
abbrev descSetStringIndicesOk (d : usb_descriptor_set) : Prop :=
  stringIndexOk d.device.iManufacturer d.string_count ∧
  stringIndexOk d.device.iProduct d.string_count ∧
  stringIndexOk d.device.iSerialNumber d.string_count ∧
  ∀ c ∈ d.configs, stringIndexOk c.desc.iConfiguration d.string_count

/-- A referenced string index is valid when it is 0 (no string) or at
most the string count: string indices are 1-based (spec §3 and §6, the
String Table is indexed 1..N with 0 reserved), so nonzero index `i`
denotes entry `i - 1` of the strings array. -/
abbrev stringIndexOk' (n count : Nat) : Prop := n = 0 ∨ n ≤ count

abbrev descSetStringIndicesOk' (d : usb_descriptor_set) : Prop :=
  stringIndexOk' d.device.iManufacturer d.string_count ∧
  stringIndexOk' d.device.iProduct d.string_count ∧
  stringIndexOk' d.device.iSerialNumber d.string_count ∧
  ∀ c ∈ d.configs, stringIndexOk' c.desc.iConfiguration d.string_count

/-! ## Device-descriptor serialization (C7)

Modelled from the spec: the serialization of a device descriptor (spec
§6, "device descriptor (18 bytes, USB-standard field order and sizes)")
is performed by the external protocol engine, not by code under `src/`;
it emits each field in the USB-standard order, one byte per single-byte
field and two bytes, little-endian, for each 16-bit field (bcdUSB,
idVendor, idProduct, bcdDevice). -/

def le16 (v : Nat) : List Nat := [v % 256, v / 256 % 256]

def serializeDevice (d : usb_desc_device) : List Nat :=
  [d.bLength % 256, d.bDescriptorType % 256] ++ le16 d.bcdUSB ++
  [d.bDeviceClass % 256, d.bDeviceSubClass % 256, d.bDeviceProtocol % 256,
    d.bMaxPacketSize0 % 256] ++
  le16 d.idVendor ++ le16 d.idProduct ++ le16 d.bcdDevice ++
  [d.iManufacturer % 256, d.iProduct % 256, d.iSerialNumber % 256,
    d.bNumConfigurations % 256]

/-! ## Control-dispatch loop (src/firmware/fx2usb/main.c, main)

```
while (1) {
  while ((USBIRQ & _SUDAV) == 0) { (void) 0; }
  scratch[1] = scratch[0]; // 0xe001
  isr_SUDAV();
  scratch[2] = scratch[0]; // 0xe002
}
```

The firmware state carries the USBIRQ interrupt-status register, the
scratch memory (a byte array at 0xe000, modelled as a function from cell
index to value) and the immutable descriptor set. The external protocol
engine `isr_SUDAV` (libfx2, out of scope per spec §6) is an arbitrary
state transformer. Each hardware access of the loop is recorded as an
event so that ordering claims can be stated on the iteration trace.
-/

/-- Modelled from the spec: the setup-available bit mask `_SUDAV` is a
fixed one-bit constant of the register interface (spec §6); its concrete
position, bit 0 of USBIRQ, comes from the FX2 register map of the libfx2
headers, which are not part of this repository. No claim depends on the
position, only on the bit test `USBIRQ & _SUDAV`. -/
def SUDAV : Nat := 1

structure FwState where
  usbirq : Nat
  scratch : Nat → Nat
  descSet : usb_descriptor_set

/-- The 8-bit store `scratch[i] = v`. -/
def writeScratch (s : FwState) (i v : Nat) : FwState :=
  { s with scratch := fun j => if j = i then v % 256 else s.scratch j }

/-- Observable events of one pass of the dispatch loop: a read test of
the SUDAV bit (with its outcome), the pre-handler marker write
`scratch[1] = scratch[0]`, the `isr_SUDAV()` call, and the post-handler
marker write `scratch[2] = scratch[0]`. -/
inductive Ev where
  | test (b : Bool)
  | mark1
  | isr
  | mark2
deriving DecidableEq

/-- The busy-wait `while ((USBIRQ & _SUDAV) == 0)`, with fuel: `none`
means the bit was still clear after `fuel` reads (the spin would
continue). Nothing changes the state during the spin. -/
def busyWait : Nat → FwState → Option (FwState × List Ev)
  | 0, _ => none
  | fuel + 1, s =>
    if s.usbirq &&& SUDAV = 0 then
      (busyWait fuel s).map (fun p => (p.1, Ev.test false :: p.2))
    else
      some (s, [Ev.test true])

/-- The post-busy-wait part of one loop iteration: the pre-handler marker
write, the engine call, the post-handler marker write, in source order. -/
def stepState (engine : FwState → FwState) (s : FwState) : FwState :=
  let s1 := writeScratch s 1 (s.scratch 0)
  let s2 := engine s1
  writeScratch s2 2 (s2.scratch 0)

/-- One full iteration of the outer `while (1)` loop. -/
def loopIter (fuel : Nat) (engine : FwState → FwState) (s : FwState) :
    Option (FwState × List Ev) :=
  match busyWait fuel s with
  | none => none
  | some (s0, t0) => some (stepState engine s0, t0 ++ [Ev.mark1, Ev.isr, Ev.mark2])

/-- `n` iterations of the outer loop with their concatenated event trace
(the harness-injected bounded iteration count of spec §9). -/
def run (fuel : Nat) (engine : FwState → FwState) :
    Nat → FwState → Option (FwState × List Ev)
  | 0, s => some (s, [])
  | n + 1, s =>
    (loopIter fuel engine s).bind fun p =>
      (run fuel engine n p.1).map fun q => (q.1, p.2 ++ q.2)

/-- The 8-byte SETUP request record (spec glossary): request type,
request code, value, index, length. -/
structure usb_req_setup where
  bmRequestType : Nat
  bRequest : Nat
  wValue : Nat
  wIndex : Nat
  wLength : Nat
deriving DecidableEq

/-- `handle_usb_setup` of `src/firmware/fx2usb/main.c` (the body in
`src/test-libfx2/main.c` is identical): the request hook body is
`return;` — it performs no write through the request pointer and no
firmware-state change, thereby declining the request to the engine. -/
def handle_usb_setup (req : usb_req_setup) (s : FwState) :
    usb_req_setup × FwState :=
  (req, s)

/-! ## Lemmas and claim theorems -/

lemma clkspd_le_three (c : Nat) : clkspd c ≤ 3 := by
  have h1 : c &&& CLKSPD_MASK ≤ CLKSPD_MASK := Nat.and_le_right
  have h2 : CLKSPD_MASK = 24 := by decide
  rw [h2] at h1
  unfold clkspd
  rw [Nat.shiftRight_eq_div_pow, h2]
  have h4 : (2 : Nat) ^ CLKSPD_OFFSET = 8 := by decide
  rw [h4]
  omega

/-- The step function factors through the field value. -/
lemma clkspdStep_eq_of_clkspd {c d : Nat} (h : clkspd c = clkspd d) :
    clkspdStep c = clkspdStep d := by
  unfold clkspdStep
  rw [h]

/-- On a valid field value the step advances the field cyclically. -/
lemma clkspd_step_field (c : Nat) (h : clkspd c < 3) :
    clkspd (clkspdStep c) = (clkspd c + 1) % 3 := by
  unfold clkspdStep
  interval_cases h' : clkspd c <;> decide

/-- The field value written by a step is never 3, whatever was read. -/
lemma clkspd_step_ne_three (c : Nat) : clkspd (clkspdStep c) ≠ 3 := by
  have hle := clkspd_le_three c
  unfold clkspdStep
  interval_cases h' : clkspd c <;> decide

lemma clkspdRun_field (n : Nat) : ∀ c : Nat, clkspd c < 3 →
    clkspd (clkspdRun n c) = (clkspd c + n) % 3 := by
  induction n with
  | zero =>
    intro c h
    simp [clkspdRun, Nat.mod_eq_of_lt h]
  | succ n ih =>
    intro c h
    have hstep := clkspd_step_field c h
    have hlt : clkspd (clkspdStep c) < 3 := by rw [hstep]; omega
    have := ih (clkspdStep c) hlt
    rw [clkspdRun] at *
    rw [this, hstep]
    omega

/-- C2: started at any of the three valid field values 00, 01, 10, every
subsequent transition of the clock-divider loop advances the CLKSPD field
in strict round-robin order DIV1 → DIV2 → DIV4 → DIV1, and no value ever
written to the field equals 11. -/
theorem clkspd_round_robin (c : Nat) (h : clkspd c < 3) :
    (∀ n : Nat, clkspd (clkspdRun (n + 1) c) = (clkspd c + (n + 1)) % 3) ∧
    (∀ d : Nat, clkspd (clkspdStep d) ≠ 3) := by
  constructor
  · intro n
    exact clkspdRun_field (n + 1) c h
  · exact clkspd_step_ne_three

/-- C2 witness: starting from CPUCS = 0 (field DIV1), after two transitions
the field is DIV4 = 10. -/
theorem clkspd_round_robin_witness :
    clkspd 0 < 3 ∧ clkspd (clkspdRun 2 0) = (clkspd 0 + 2) % 3 :=
  ⟨by decide, (clkspd_round_robin 0 (by decide)).1 1⟩

/-- C3 counterexample: starting from CPUCS = 1 (bit 0 set, CLKSPD = 00),
the transition writes back a value whose bit 0 is cleared: the bits of
CPUCS outside the CLKSPD field are not preserved. -/
theorem clkspd_frame_cex : (clkspdStep 1).testBit 0 ≠ (1 : Nat).testBit 0 := by
  decide

/-- C3 amended: every transition writes back a value in which all bits of
CPUCS outside the 2-bit CLKSPD field (bits other than 3 and 4) are zero —
the store `CPUCS = cpuspd << _CLKSPD_OFFSET` overwrites the other bits
with 0 rather than preserving them. -/
theorem clkspd_frame_amended (c i : Nat) (h3 : i ≠ 3) (h4 : i ≠ 4) :
    (clkspdStep c).testBit i = false := by
  have hle := clkspd_le_three c
  have hval : clkspdStep c = 0 ∨ clkspdStep c = 8 ∨ clkspdStep c = 16 := by
    unfold clkspdStep
    interval_cases h' : clkspd c <;> decide
  rcases hval with hv | hv | hv <;> rw [hv]
  · exact Nat.zero_testBit i
  · have h8 : (8 : Nat) = 2 ^ 3 := by norm_num
    rw [h8]
    exact Nat.testBit_two_pow_of_ne (fun he => h3 he.symm)
  · have h16 : (16 : Nat) = 2 ^ 4 := by norm_num
    rw [h16]
    exact Nat.testBit_two_pow_of_ne (fun he => h4 he.symm)

/-- C3 amended witness: from CPUCS = 1, bit 0 of the written value is 0. -/
theorem clkspd_frame_amended_witness :
    (0 : Nat) ≠ 3 ∧ (0 : Nat) ≠ 4 ∧ (clkspdStep 1).testBit 0 = false :=
  ⟨by decide, by decide, clkspd_frame_amended 1 0 (by decide) (by decide)⟩

/-- C9: if the field read at the start of a transition is the invalid
value 11 (any field value greater than 2), the transition writes field
value 00 (DIV1): the increment-and-wrap step maps it to 0. -/
theorem clkspd_invalid_wraps (c : Nat) (h : 2 < clkspd c) :
    clkspd (clkspdStep c) = 0 := by
  have hle := clkspd_le_three c
  have h3 : clkspd c = 3 := by omega
  unfold clkspdStep
  rw [h3]
  decide

/-- C9 witness: from CPUCS = 0x18 (field 11) the next field value is 00. -/
theorem clkspd_invalid_wraps_witness :
    2 < clkspd 24 ∧ clkspd (clkspdStep 24) = 0 :=
  ⟨by decide, clkspd_invalid_wraps 24 (by decide)⟩

/-- C10: the byte a transition writes to CPUCS depends only on bits 3 and
4 of the byte it read: two CPUCS values that agree on bits 3 and 4 produce
the same written byte. -/
theorem clkspd_noninterference (c d : Nat)
    (h3 : c.testBit 3 = d.testBit 3) (h4 : c.testBit 4 = d.testBit 4) :
    clkspdStep c = clkspdStep d := by
  apply clkspdStep_eq_of_clkspd
  unfold clkspd
  congr 1
  apply Nat.eq_of_testBit_eq
  intro i
  rw [Nat.testBit_and, Nat.testBit_and]
  by_cases hi3 : i = 3
  · subst hi3; rw [h3]
  · by_cases hi4 : i = 4
    · subst hi4; rw [h4]
    · have hmask : CLKSPD_MASK.testBit i = false := by
        have h24 : CLKSPD_MASK = 24 := by decide
        rw [h24]
        rcases Nat.lt_or_ge i 5 with hlt | hge
        · interval_cases i <;>
            first
            | decide
            | exact absurd rfl hi3
            | exact absurd rfl hi4
        · apply Nat.testBit_eq_false_of_lt
          calc (24 : Nat) < 2 ^ 5 := by norm_num
          _ ≤ 2 ^ i := Nat.pow_le_pow_right (by norm_num) hge
      rw [hmask, Bool.and_false, Bool.and_false]

/-- C10 witness: CPUCS values 8 and 9 agree on bits 3 and 4, and the
transition writes the same byte from both. -/
theorem clkspd_noninterference_witness :
    (8 : Nat).testBit 3 = (9 : Nat).testBit 3 ∧
    (8 : Nat).testBit 4 = (9 : Nat).testBit 4 ∧
    clkspdStep 8 = clkspdStep 9 :=
  ⟨by decide, by decide, clkspd_noninterference 8 9 (by decide) (by decide)⟩

/-- C4 counterexample: the fx2usb descriptor set violates the claim as
stated. Its Device descriptor references string index `iProduct = 2`
while `string_count = 2`, and 2 is neither 0 nor strictly less than 2. -/
theorem string_indices_claim_cex :
    ¬ descSetStringIndicesOk Fx2Usb.usb_descriptor_set := by
  intro h
  rcases h with ⟨_, hp, _, _⟩
  rcases hp with hp | hp
  · simp [Fx2Usb.usb_descriptor_set, Fx2Usb.usb_device] at hp
  · simp [Fx2Usb.usb_descriptor_set, Fx2Usb.usb_device,
      Fx2Usb.usb_strings] at hp

/-- C4 amended: in every descriptor set defined in the firmware, every
string index referenced by the Device descriptor (iManufacturer,
iProduct, iSerialNumber) or by a Configuration descriptor
(iConfiguration) is either 0 or at most the string count (1-based
indexing into the String Table). -/
theorem string_indices_amended :
    descSetStringIndicesOk' Fx2Usb.usb_descriptor_set ∧
    descSetStringIndicesOk' TestLibfx2.usb_descriptor_set := by
  refine ⟨⟨by decide, by decide, by decide, ?_⟩,
    ⟨by decide, by decide, by decide, ?_⟩⟩
  · intro c hc
    fin_cases hc
    decide
  · intro c hc
    fin_cases hc
    decide

/-- C5: the test-libfx2 configuration declares `bNumInterfaces = 2` in
its header while appending zero interface descriptors, so the declared
count differs from the appended count (the fx2usb configuration, with
0 and 0, satisfies the claim). -/
theorem bNumInterfaces_mismatch :
    TestLibfx2.usb_config.desc.bNumInterfaces = 2 ∧
    TestLibfx2.usb_config.interfaces.length = 0 ∧
    TestLibfx2.usb_config.desc.bNumInterfaces ≠
      TestLibfx2.usb_config.interfaces.length ∧
    Fx2Usb.usb_config.desc.bNumInterfaces =
      Fx2Usb.usb_config.interfaces.length := by
  refine ⟨rfl, rfl, ?_, rfl⟩
  decide

/-- C7: serializing the firmware Device Descriptor (idVendor 0x04b4,
idProduct 0x8613, bMaxPacketSize0 64) in USB-standard field order yields
exactly the standard 18-byte sequence: bLength 18, bDescriptorType,
bcdUSB 0x0200 little-endian, class/subclass/protocol, bMaxPacketSize0 64,
idVendor and idProduct little-endian, bcdDevice, the three string
indices, bNumConfigurations 1. -/
theorem device_descriptor_bytes :
    serializeDevice Fx2Usb.usb_device =
      [18, 1, 0x00, 0x02, 0, 0, 0, 64,
        0xb4, 0x04, 0x13, 0x86, 0x00, 0x00, 1, 2, 0, 1] ∧
    (serializeDevice Fx2Usb.usb_device).length = 18 :=
  ⟨rfl, rfl⟩

lemma busyWait_succ_of_set (fuel : Nat) (s : FwState)
    (h : s.usbirq &&& SUDAV ≠ 0) :
    busyWait (fuel + 1) s = some (s, [Ev.test true]) := by
  unfold busyWait
  rw [if_neg h]

lemma loopIter_succ_of_set (fuel : Nat) (engine : FwState → FwState)
    (s : FwState) (h : s.usbirq &&& SUDAV ≠ 0) :
    loopIter (fuel + 1) engine s =
      some (stepState engine s,
        [Ev.test true, Ev.mark1, Ev.isr, Ev.mark2]) := by
  unfold loopIter
  rw [busyWait_succ_of_set fuel s h]
  rfl

lemma writeScratch_usbirq (s : FwState) (i v : Nat) :
    (writeScratch s i v).usbirq = s.usbirq := rfl

lemma writeScratch_descSet (s : FwState) (i v : Nat) :
    (writeScratch s i v).descSet = s.descSet := rfl

lemma writeScratch_scratch_ne (s : FwState) (i v j : Nat) (h : j ≠ i) :
    (writeScratch s i v).scratch j = s.scratch j := by
  simp [writeScratch, h]

lemma stepState_usbirq (engine : FwState → FwState) (s : FwState) :
    (stepState engine s).usbirq =
      (engine (writeScratch s 1 (s.scratch 0))).usbirq := rfl

lemma stepState_descSet (engine : FwState → FwState) (s : FwState)
    (hD : ∀ t, (engine t).descSet = t.descSet) :
    (stepState engine s).descSet = s.descSet := by
  show (engine (writeScratch s 1 (s.scratch 0))).descSet = s.descSet
  rw [hD]
  rfl

lemma run_succ_of_set (fuel n : Nat) (engine : FwState → FwState)
    (s : FwState) (h : s.usbirq &&& SUDAV ≠ 0) :
    run (fuel + 1) engine (n + 1) s =
      (run (fuel + 1) engine n (stepState engine s)).map
        fun q => (q.1, [Ev.test true, Ev.mark1, Ev.isr, Ev.mark2] ++ q.2) := by
  show ((loopIter (fuel + 1) engine s).bind fun p =>
      (run (fuel + 1) engine n p.1).map fun q => (q.1, p.2 ++ q.2)) = _
  rw [loopIter_succ_of_set fuel engine s h]
  rfl

lemma stepState_scratch (engine : FwState → FwState) (s : FwState)
    (i : Nat) (hi1 : i ≠ 1) (hi2 : i ≠ 2)
    (hs : ∀ t, (engine t).scratch i = t.scratch i) :
    (stepState engine s).scratch i = s.scratch i := by
  unfold stepState
  rw [writeScratch_scratch_ne _ _ _ _ hi2, hs,
    writeScratch_scratch_ne _ _ _ _ hi1]

/-- C1: in any state with the SUDAV bit of the interrupt-status register
set, one iteration of the dispatch loop tests the bit once, then performs
the pre-handler marker write `scratch[1] = scratch[0]`, then invokes the
external engine handler exactly once, then performs the post-handler
marker write `scratch[2] = scratch[0]`; the bit is not tested again
within the iteration, and the state handed to the engine already carries
the pre-handler marker. -/
theorem sudav_dispatch_once (fuel : Nat) (engine : FwState → FwState)
    (s : FwState) (h : s.usbirq &&& SUDAV ≠ 0) :
    loopIter (fuel + 1) engine s =
      some (stepState engine s,
        [Ev.test true, Ev.mark1, Ev.isr, Ev.mark2]) ∧
    [Ev.test true, Ev.mark1, Ev.isr, Ev.mark2].count Ev.isr = 1 ∧
    stepState engine s =
      writeScratch (engine (writeScratch s 1 (s.scratch 0))) 2
        ((engine (writeScratch s 1 (s.scratch 0))).scratch 0) ∧
    (writeScratch s 1 (s.scratch 0)).scratch 1 = s.scratch 0 % 256 ∧
    (stepState engine s).scratch 2 =
      (engine (writeScratch s 1 (s.scratch 0))).scratch 0 % 256 := by
  refine ⟨loopIter_succ_of_set fuel engine s h, by decide, rfl, ?_, ?_⟩
  · simp [writeScratch]
  · show (writeScratch (engine (writeScratch s 1 (s.scratch 0))) 2
      ((engine (writeScratch s 1 (s.scratch 0))).scratch 0)).scratch 2 = _
    simp [writeScratch]

/-- C1 witness: a concrete state with USBIRQ = 1 (SUDAV set), zeroed
scratch and the fx2usb descriptor set, run against the identity engine. -/
theorem sudav_dispatch_once_witness :
    (FwState.mk 1 (fun _ => 0) Fx2Usb.usb_descriptor_set).usbirq
        &&& SUDAV ≠ 0 ∧
    loopIter 1 id (FwState.mk 1 (fun _ => 0) Fx2Usb.usb_descriptor_set) =
      some (stepState id
          (FwState.mk 1 (fun _ => 0) Fx2Usb.usb_descriptor_set),
        [Ev.test true, Ev.mark1, Ev.isr, Ev.mark2]) :=
  ⟨by decide,
    (sudav_dispatch_once 0 id
      (FwState.mk 1 (fun _ => 0) Fx2Usb.usb_descriptor_set) (by decide)).1⟩

/-- C6: if the external engine never clears the SUDAV bit, `n` loop
iterations from a state with the bit set succeed and invoke the handler
exactly once per iteration; and the loop body itself leaves the
descriptor set untouched and writes no scratch cell other than 1 and 2:
whenever the engine preserves the descriptor set, the iterations
preserve it, and whenever the engine preserves a scratch cell other than
cells 1 and 2, the iterations preserve that cell. -/
theorem livelock_reinvoke_frame (fuel n : Nat)
    (engine : FwState → FwState) (s : FwState)
    (hE : ∀ t, (engine t).usbirq &&& SUDAV ≠ 0)
    (hD : ∀ t, (engine t).descSet = t.descSet)
    (h0 : s.usbirq &&& SUDAV ≠ 0) :
    ∃ s' tr, run (fuel + 1) engine n s = some (s', tr) ∧
      tr.count Ev.isr = n ∧
      s'.descSet = s.descSet ∧
      ∀ i, i ≠ 1 → i ≠ 2 → (∀ t, (engine t).scratch i = t.scratch i) →
        s'.scratch i = s.scratch i := by
  induction n generalizing s with
  | zero =>
    exact ⟨s, [], rfl, rfl, rfl, fun i h1 h2 h3 => rfl⟩
  | succ n ih =>
    have hs1 : (stepState engine s).usbirq &&& SUDAV ≠ 0 := by
      rw [stepState_usbirq]
      exact hE _
    obtain ⟨s', tr, hrun, hcount, hdesc, hscr⟩ := ih (stepState engine s) hs1
    refine ⟨s', [Ev.test true, Ev.mark1, Ev.isr, Ev.mark2] ++ tr,
      ?_, ?_, ?_, ?_⟩
    · rw [run_succ_of_set fuel n engine s h0, hrun]
      rfl
    · have h4 : List.count Ev.isr
          [Ev.test true, Ev.mark1, Ev.isr, Ev.mark2] = 1 := by decide
      rw [List.count_append, h4, hcount]
      omega
    · rw [hdesc, stepState_descSet engine s hD]
    · intro i h1 h2 h3
      rw [hscr i h1 h2 h3, stepState_scratch engine s i h1 h2 h3]

/-- C6 witness: an engine that forces the bit to stay set and changes
nothing else, two iterations from a concrete state. -/
theorem livelock_reinvoke_frame_witness :
    (∀ t : FwState,
      ((fun u : FwState => { u with usbirq := 1 }) t).usbirq
        &&& SUDAV ≠ 0) ∧
    (∀ t : FwState,
      ((fun u : FwState => { u with usbirq := 1 }) t).descSet =
        t.descSet) ∧
    (FwState.mk 1 (fun _ => 0) Fx2Usb.usb_descriptor_set).usbirq
        &&& SUDAV ≠ 0 ∧
    ∃ s' tr,
      run 1 (fun u : FwState => { u with usbirq := 1 }) 2
        (FwState.mk 1 (fun _ => 0) Fx2Usb.usb_descriptor_set) =
          some (s', tr) ∧
      tr.count Ev.isr = 2 ∧
      s'.descSet =
        (FwState.mk 1 (fun _ => 0) Fx2Usb.usb_descriptor_set).descSet ∧
      ∀ i, i ≠ 1 → i ≠ 2 →
        (∀ t : FwState,
          ((fun u : FwState => { u with usbirq := 1 }) t).scratch i =
            t.scratch i) →
        s'.scratch i =
          (FwState.mk 1 (fun _ => 0) Fx2Usb.usb_descriptor_set).scratch i := by
  have h1 : ∀ t : FwState,
      ((fun u : FwState => { u with usbirq := 1 }) t).usbirq
        &&& SUDAV ≠ 0 := by
    intro t
    show (1 : Nat) &&& SUDAV ≠ 0
    decide
  have h2 : ∀ t : FwState,
      ((fun u : FwState => { u with usbirq := 1 }) t).descSet =
        t.descSet := fun t => rfl
  have h0 : (FwState.mk 1 (fun _ => 0) Fx2Usb.usb_descriptor_set).usbirq
      &&& SUDAV ≠ 0 := by
    show (1 : Nat) &&& SUDAV ≠ 0
    decide
  exact ⟨h1, h2, h0,
    livelock_reinvoke_frame 0 2 (fun u : FwState => { u with usbirq := 1 })
      (FwState.mk 1 (fun _ => 0) Fx2Usb.usb_descriptor_set) h1 h2 h0⟩

/-- C8: the request hook `handle_usb_setup` declines every SETUP request:
it returns leaving the request record and the whole firmware state
exactly as they were, so no non-standard request is ever handled. -/
theorem handle_usb_setup_declines (req : usb_req_setup) (s : FwState) :
    handle_usb_setup req s = (req, s) :=
  rfl
